import Mathlib

/-!
Shallow embedding of the client upload/recognition workflow of
`src/web_app/frontend/src/App.vue` (DeepSeek-OCR web frontend).

The reactive refs of the component become fields of `AppState`; the event
handlers `handleUploadChange`, `handleRemove`, `submitUpload` and
`copyResult` become pure functions from a state (plus the environment
response, when the handler awaits one) to a new state together with the
observable effects (messages shown via ElMessage, the dispatched HTTP
request, clipboard writes).  The `marked` markdown renderer is an external
library, modelled as an abstract total function `String → String`.
-/

namespace DeepSeekOCR

/-- A file held in `fileList`; element-plus hands the handler an object whose
`raw` field is the underlying binary `File`.  Binary content is modelled by a
`Nat` identity. -/
structure UploadFile where
  name : String
  raw : Nat
deriving DecidableEq, Repr

/-- The recognition mode radio group offers exactly the labels `markdown`
and `ocr` (template `el-radio` elements), which are the values
`selectedMode` can hold besides its initial `markdown`. -/
inductive Mode where
  | markdown
  | ocr
deriving DecidableEq, Repr

/-- The wire string stored in `selectedMode` and sent as the `mode` form
field. -/
def Mode.wire : Mode → String
  | .markdown => "markdown"
  | .ocr => "ocr"

/-- The mutable refs of the component that the claims concern:
`fileList`, `selectedMode`, `loading`, `result`, `rawResult`. -/
structure AppState where
  fileList : List UploadFile
  selectedMode : Mode
  loading : Bool
  result : String
  rawResult : String
deriving DecidableEq, Repr

/-- Initial state of the component: `fileList = []`, mode `markdown`,
not loading, empty result texts. -/
def initState : AppState :=
  { fileList := []
  , selectedMode := .markdown
  , loading := false
  , result := ""
  , rawResult := "" }

/-- A user-visible ElMessage notification. -/
inductive Msg where
  | warning (text : String)
  | success (text : String)
  | error (text : String)
deriving DecidableEq, Repr

/-- `handleUploadChange(file)`: `fileList.value = [file]`,
`result.value = ''`, `rawResult.value = ''`. -/
def handleUploadChange (s : AppState) (file : UploadFile) : AppState :=
  { s with fileList := [file], result := "", rawResult := "" }

/-- `handleRemove()`: `fileList.value = []`, `result.value = ''`,
`rawResult.value = ''`. -/
def handleRemove (s : AppState) : AppState :=
  { s with fileList := [], result := "", rawResult := "" }

/-! ### Object-URL resource accounting for the `imageUrl` computed

`imageUrl` is `computed(() => fileList.length > 0 && fileList[0].raw ?
URL.createObjectURL(fileList[0].raw) : '')`.  Each evaluation with a
selected file allocates a fresh object URL.  The component contains no
`URL.revokeObjectURL` call anywhere.  We track allocations and releases
along a trace of select/remove events, re-evaluating the computed after
each event (its dependency `fileList` changed). -/

/-- One evaluation of the `imageUrl` computed: with a non-empty `fileList`
it calls `URL.createObjectURL`, returning a fresh URL (the current counter)
and bumping the counter; with an empty list it returns no URL. -/
def imageUrlEval (fileList : List UploadFile) (next : Nat) : Option Nat × Nat :=
  match fileList with
  | _ :: _ => (some next, next + 1)
  | [] => (none, next)

/-- A user event on the upload manager. -/
inductive Op where
  | select (file : UploadFile)
  | remove
deriving DecidableEq, Repr

/-- Component state together with the runtime's object-URL bookkeeping:
URLs handed out by `URL.createObjectURL` and URLs passed to
`URL.revokeObjectURL`. -/
structure TraceState where
  app : AppState
  nextUrl : Nat
  allocated : List Nat
  revoked : List Nat
deriving DecidableEq, Repr

/-- Initial trace state: fresh component, no URLs allocated or revoked. -/
def initTrace : TraceState :=
  { app := initState, nextUrl := 0, allocated := [], revoked := [] }

/-- One select/remove event: run the handler, then re-evaluate the
`imageUrl` computed (its dependency changed).  No code path of the
component revokes a URL, so `revoked` never grows. -/
def stepTrace (t : TraceState) (op : Op) : TraceState :=
  let app :=
    match op with
    | .select f => handleUploadChange t.app f
    | .remove => handleRemove t.app
  let res := imageUrlEval app.fileList t.nextUrl
  { app := app
  , nextUrl := res.2
  , allocated := t.allocated ++ (match res.1 with | some u => [u] | none => [])
  , revoked := t.revoked }

/-- Run a sequence of select/remove events from a trace state. -/
def runTrace (t : TraceState) (ops : List Op) : TraceState :=
  ops.foldl stepTrace t

/-! ### `submitUpload` -/

/-- The JSON body of a successful response; the only field the component
reads is `result`, which may be absent. -/
structure Payload where
  result : Option String
deriving DecidableEq, Repr

/-- The `data` of an axios error response, of which the component reads
only `detail` (may be absent). -/
structure ErrData where
  detail : Option String
deriving DecidableEq, Repr

/-- The `response` attached to an axios error; absent on pure network
failures. -/
structure ErrResponse where
  data : Option ErrData
deriving DecidableEq, Repr

/-- An axios error caught by the `catch` block: the optional server
response and the client-side `message` string. -/
structure NetErr where
  response : Option ErrResponse
  message : String
deriving DecidableEq, Repr

/-- The optional chain `error.response?.data?.detail`. -/
def NetErr.detailChain (e : NetErr) : Option String :=
  e.response.bind (fun r => r.data.bind (fun d => d.detail))

/-- `error.response?.data?.detail || error.message`: JavaScript `||`
falls through on an absent or falsy (empty-string) detail. -/
def NetErr.errText (e : NetErr) : String :=
  match e.detailChain with
  | some d => if d = "" then e.message else d
  | none => e.message

/-- Resolution of the awaited `axios.post`: a response (whose `data` is the
parsed JSON body, possibly empty/absent) or a thrown error. -/
inductive ServerOutcome where
  | success (data : Option Payload)
  | failure (err : NetErr)
deriving DecidableEq, Repr

/-- The JavaScript truthiness test `response.data && response.data.result`:
`data` must be present and its `result` field present and non-empty. -/
def dataHasResult : Option Payload → Bool
  | some p =>
    match p.result with
    | some s => s ≠ ""
    | none => false
  | none => false

/-- The HTTP request `submitUpload` dispatches: `axios.post('/api/ocr',
formData, ...)` with form fields `file` (the selected binary) and `mode`
(the wire string of the current mode) under a multipart content type. -/
structure Request where
  url : String
  fileField : Nat
  modeField : String
  contentType : String
deriving DecidableEq, Repr

/-- Outcome of one `submitUpload` invocation: final state, the dispatched
request (if any), the ElMessage notifications shown, and the value of
`loading` observed at the moment of dispatch. -/
structure SubmitResult where
  state : AppState
  request : Option Request
  messages : List Msg
  loadingAtDispatch : Bool
deriving DecidableEq, Repr

/-- `submitUpload()`: guard on an empty `fileList` (warning, early return);
otherwise set `loading := true`, build the form data, post it, then either
write `result`/`rawResult` and report success, warn on a missing/falsy
`result` field, or report the caught error; `finally` clears `loading`. -/
def submitUpload (s : AppState) (outcome : ServerOutcome) : SubmitResult :=
  match s.fileList with
  | [] =>
    { state := s
    , request := none
    , messages := [Msg.warning "请先选择一张图片"]
    , loadingAtDispatch := false }
  | f :: _ =>
    let s1 := { s with loading := true }
    let req : Request :=
      { url := "/api/ocr"
      , fileField := f.raw
      , modeField := s1.selectedMode.wire
      , contentType := "multipart/form-data" }
    let afterTry : AppState × List Msg :=
      match outcome with
      | .success data =>
        if dataHasResult data then
          match data with
          | some p =>
            match p.result with
            | some r =>
              ({ s1 with result := r, rawResult := r }, [Msg.success "识别成功"])
            | none => (s1, [Msg.warning "未返回识别结果"])
          | none => (s1, [Msg.warning "未返回识别结果"])
        else
          (s1, [Msg.warning "未返回识别结果"])
      | .failure e =>
        (s1, [Msg.error ("识别失败: " ++ e.errText)])
    { state := { afterTry.1 with loading := false }
    , request := some req
    , messages := afterTry.2
    , loadingAtDispatch := s1.loading }

/-! ### Result rendering and `copyResult` -/

/-- `renderedMarkdown` is `computed(() => marked(result.value))`; `marked`
is the external markdown library, an abstract total transform. -/
def renderedMarkdown (marked : String → String) (s : AppState) : String :=
  marked s.result

/-- What the preview tab shows (template: skeleton `v-if=loading`,
markdown body `v-else-if=result`, empty placeholder `v-else`). -/
inductive Pane where
  | skeletonLoading
  | markdownBody (html : String)
  | emptyState
deriving DecidableEq, Repr

/-- The preview tab content as a function of the state and the renderer. -/
def previewPane (marked : String → String) (s : AppState) : Pane :=
  if s.loading then .skeletonLoading
  else if s.result ≠ "" then .markdownBody (renderedMarkdown marked s)
  else .emptyState

/-- Resolution of the `navigator.clipboard.writeText` promise. -/
inductive ClipOutcome where
  | ok
  | fail
deriving DecidableEq, Repr

/-- Effects of one `copyResult` invocation: the texts written to the
clipboard and the notifications shown. -/
structure CopyResult where
  writes : List String
  messages : List Msg
deriving DecidableEq, Repr

/-- `copyResult()`: early return on falsy (empty) `rawResult`; otherwise
write the raw text and report 复制成功 on resolution, 复制失败 on the
caught rejection. -/
def copyResult (s : AppState) (clip : ClipOutcome) : CopyResult :=
  if s.rawResult = "" then
    { writes := [], messages := [] }
  else
    { writes := [s.rawResult]
    , messages :=
        match clip with
        | .ok => [Msg.success "复制成功"]
        | .fail => [Msg.error "复制失败"] }

/-! ### Helper lemmas -/

/-- No `URL.revokeObjectURL` call exists in the component, so a
select/remove step never enlarges the revoked set. -/
lemma stepTrace_revoked (t : TraceState) (op : Op) :
    (stepTrace t op).revoked = t.revoked := by
  cases op <;> rfl

/-- The revoked set is invariant along any event trace. -/
lemma runTrace_revoked (t : TraceState) (ops : List Op) :
    (runTrace t ops).revoked = t.revoked := by
  induction ops generalizing t with
  | nil => rfl
  | cons op ops ih =>
    show (runTrace (stepTrace t op) ops).revoked = t.revoked
    rw [ih, stepTrace_revoked]

/-- After any single select/remove step the result texts are cleared and at
most one file is selected. -/
lemma stepTrace_app (t : TraceState) (op : Op) :
    (stepTrace t op).app.result = "" ∧ (stepTrace t op).app.rawResult = "" ∧
    (stepTrace t op).app.fileList.length ≤ 1 := by
  cases op <;> simp [stepTrace, handleUploadChange, handleRemove]

/-- Running any trace from a state with at most one selected file keeps at
most one selected file. -/
lemma runTrace_fileList_len (t : TraceState) (ops : List Op)
    (h : t.app.fileList.length ≤ 1) :
    (runTrace t ops).app.fileList.length ≤ 1 := by
  induction ops generalizing t with
  | nil => exact h
  | cons op ops ih => exact ih (stepTrace t op) (stepTrace_app t op).2.2

/-! ### Claim theorems -/

/-- C1: selecting `a.png` then `b.png` allocates a fresh preview URL for
each selection, yet the URL allocated for `a.png` is never released — the
component contains no `URL.revokeObjectURL` call, so along every
select/remove trace the set of revoked URLs stays empty, contradicting the
claim that each preview URL is released exactly once when its file is
replaced or removed. -/
theorem preview_urls_never_released :
    (runTrace initTrace [Op.select ⟨"a.png", 1⟩, Op.select ⟨"b.png", 2⟩]).allocated = [0, 1] ∧
    (runTrace initTrace [Op.select ⟨"a.png", 1⟩, Op.select ⟨"b.png", 2⟩]).app.fileList
      = [⟨"b.png", 2⟩] ∧
    (runTrace initTrace [Op.select ⟨"a.png", 1⟩, Op.select ⟨"b.png", 2⟩]).revoked = [] ∧
    (∀ ops : List Op, (runTrace initTrace ops).revoked = []) :=
  ⟨by decide, by decide, by decide, fun ops => runTrace_revoked initTrace ops⟩

/-- C6: along every sequence of select/remove events at most one file is
ever selected, and immediately after each select (replacement) or remove
event both `result` and `rawResult` are empty. -/
theorem select_remove_invariant :
    (∀ ops : List Op, (runTrace initTrace ops).app.fileList.length ≤ 1) ∧
    (∀ (ops : List Op) (op : Op),
      (runTrace initTrace (ops ++ [op])).app.result = "" ∧
      (runTrace initTrace (ops ++ [op])).app.rawResult = "" ∧
      (runTrace initTrace (ops ++ [op])).app.fileList.length ≤ 1) := by
  constructor
  · intro ops
    exact runTrace_fileList_len initTrace ops (by decide)
  · intro ops op
    have h : runTrace initTrace (ops ++ [op])
        = stepTrace (runTrace initTrace ops) op := by
      simp [runTrace, List.foldl_append]
    rw [h]
    exact stepTrace_app _ _

/-- C2: with no selected file, `submitUpload` shows the
file-missing warning, dispatches no request and leaves the whole state —
in particular `result` and `rawResult` — untouched. -/
theorem submitUpload_no_file (s : AppState) (o : ServerOutcome)
    (h : s.fileList = []) :
    (submitUpload s o).state = s ∧
    (submitUpload s o).request = none ∧
    (submitUpload s o).messages = [Msg.warning "请先选择一张图片"] := by
  rcases s with ⟨fl, m, l, r, rr⟩
  cases h
  exact ⟨rfl, rfl, rfl⟩

/-- C2 witness: concrete run on the initial state and a network failure. -/
theorem submitUpload_no_file_witness :
    initState.fileList = [] ∧
    ((submitUpload initState (ServerOutcome.failure ⟨none, "Network Error"⟩)).state
        = initState ∧
      (submitUpload initState (ServerOutcome.failure ⟨none, "Network Error"⟩)).request
        = none ∧
      (submitUpload initState (ServerOutcome.failure ⟨none, "Network Error"⟩)).messages
        = [Msg.warning "请先选择一张图片"]) :=
  ⟨rfl, submitUpload_no_file initState (ServerOutcome.failure ⟨none, "Network Error"⟩) rfl⟩

/-- C3: every dispatching invocation of `submitUpload` (a file is selected,
so a request is issued) observes `loading = true` at dispatch and ends with
`loading = false`, for every outcome — truthy result, missing result field,
or a thrown network/server error — because the clearing sits in `finally`. -/
theorem submitUpload_loading_cleared (s : AppState) (o : ServerOutcome)
    (h : s.fileList ≠ []) :
    (submitUpload s o).loadingAtDispatch = true ∧
    (submitUpload s o).state.loading = false ∧
    (submitUpload s o).request.isSome = true := by
  rcases s with ⟨fl, m, l, r, rr⟩
  cases fl with
  | nil => exact absurd rfl h
  | cons f rest => exact ⟨rfl, rfl, rfl⟩

/-- C3 witness: concrete dispatching run with a network failure. -/
theorem submitUpload_loading_cleared_witness :
    ({ initState with fileList := [⟨"a.png", 1⟩] } : AppState).fileList ≠ [] ∧
    ((submitUpload { initState with fileList := [⟨"a.png", 1⟩] }
        (ServerOutcome.failure ⟨none, "Network Error"⟩)).loadingAtDispatch = true ∧
      (submitUpload { initState with fileList := [⟨"a.png", 1⟩] }
        (ServerOutcome.failure ⟨none, "Network Error"⟩)).state.loading = false ∧
      (submitUpload { initState with fileList := [⟨"a.png", 1⟩] }
        (ServerOutcome.failure ⟨none, "Network Error"⟩)).request.isSome = true) :=
  ⟨by decide, submitUpload_loading_cleared { initState with fileList := [⟨"a.png", 1⟩] }
    (ServerOutcome.failure ⟨none, "Network Error"⟩) (by decide)⟩

/-- A state with a selected file and a prior recognition result, used to
exercise `submitUpload` on a response whose `result` field is empty. -/
def priorResultState : AppState :=
  { fileList := [⟨"a.png", 1⟩]
  , selectedMode := .markdown
  , loading := false
  , result := "x"
  , rawResult := "x" }

/-- C4 counterexample: the response payload contains a `result` field with
value `""`, yet `submitUpload` does not set `rawResult` to `""` (it stays
`"x"`) and reports the no-result warning instead of success, because the
code tests `response.data.result` by truthiness. -/
theorem submitUpload_empty_result_cex :
    (submitUpload priorResultState (ServerOutcome.success (some ⟨some ""⟩))).state.rawResult
      = "x" ∧
    (submitUpload priorResultState (ServerOutcome.success (some ⟨some ""⟩))).state.result
      = "x" ∧
    (submitUpload priorResultState (ServerOutcome.success (some ⟨some ""⟩))).messages
      = [Msg.warning "未返回识别结果"] := by
  decide

/-- C4 (amended): for every successful response whose payload carries a
non-empty `result` text `r`, `submitUpload` writes `r` into both `result`
and `rawResult`, reports success, and the rendered view is recomputed from
`r`. -/
theorem submitUpload_result_written (s : AppState) (p : Payload) (r : String)
    (hf : s.fileList ≠ []) (hr : p.result = some r) (hne : r ≠ "") :
    (submitUpload s (ServerOutcome.success (some p))).state.result = r ∧
    (submitUpload s (ServerOutcome.success (some p))).state.rawResult = r ∧
    (submitUpload s (ServerOutcome.success (some p))).messages
      = [Msg.success "识别成功"] ∧
    (∀ marked : String → String,
      renderedMarkdown marked (submitUpload s (ServerOutcome.success (some p))).state
        = marked r) := by
  rcases s with ⟨fl, m, l, res, rres⟩
  cases fl with
  | nil => exact absurd rfl hf
  | cons f rest =>
    rcases p with ⟨pr⟩
    cases hr
    simp [submitUpload, dataHasResult, hne, renderedMarkdown]

/-- C4 witness: the response `{result: "abc"}` makes the raw result `"abc"`. -/
theorem submitUpload_result_written_witness :
    priorResultState.fileList ≠ [] ∧ (Payload.mk (some "abc")).result = some "abc" ∧
    ("abc" : String) ≠ "" ∧
    ((submitUpload priorResultState (ServerOutcome.success (some ⟨some "abc"⟩))).state.result
        = "abc" ∧
      (submitUpload priorResultState (ServerOutcome.success (some ⟨some "abc"⟩))).state.rawResult
        = "abc" ∧
      (submitUpload priorResultState (ServerOutcome.success (some ⟨some "abc"⟩))).messages
        = [Msg.success "识别成功"] ∧
      (∀ marked : String → String,
        renderedMarkdown marked
          (submitUpload priorResultState (ServerOutcome.success (some ⟨some "abc"⟩))).state
          = marked "abc")) :=
  ⟨by decide, rfl, by decide,
    submitUpload_result_written priorResultState ⟨some "abc"⟩ "abc"
      (by decide) rfl (by decide)⟩

/-- Whether the `try` block takes its success branch: the response resolved
and its `data` passes the truthiness test on `result`. -/
def outcomeOk : ServerOutcome → Bool
  | .success data => dataHasResult data
  | .failure _ => false

/-- The single notification shown on a non-success outcome: the no-result
warning, or the error message built from the caught error. -/
def nonSuccessMsg : ServerOutcome → Msg
  | .success _ => .warning "未返回识别结果"
  | .failure e => .error ("识别失败: " ++ e.errText)

/-- C5: on every non-success outcome of a dispatching `submitUpload` — a
payload lacking (or with falsy) `result`, or a thrown network/server
error — exactly one warning or error notification is shown and `result`
and `rawResult` keep their pre-call values; the error text uses the
server-provided `detail` when present and truthy, else the client error
message. -/
theorem submitUpload_nonsuccess_preserved (s : AppState) (o : ServerOutcome)
    (hf : s.fileList ≠ []) (hok : outcomeOk o = false) :
    (submitUpload s o).state.result = s.result ∧
    (submitUpload s o).state.rawResult = s.rawResult ∧
    (submitUpload s o).messages = [nonSuccessMsg o] ∧
    (∀ (e : NetErr) (d : String), e.detailChain = some d → d ≠ "" → e.errText = d) ∧
    (∀ e : NetErr, e.detailChain = none → e.errText = e.message) := by
  have herr : ∀ (e : NetErr) (d : String),
      e.detailChain = some d → d ≠ "" → e.errText = d := by
    intro e d hd hne
    simp [NetErr.errText, hd, hne]
  have hnone : ∀ e : NetErr, e.detailChain = none → e.errText = e.message := by
    intro e he
    simp [NetErr.errText, he]
  rcases s with ⟨fl, m, l, res, rres⟩
  cases fl with
  | nil => exact absurd rfl hf
  | cons f rest =>
    cases o with
    | success data =>
      have hd : dataHasResult data = false := hok
      refine ⟨?_, ?_, ?_, herr, hnone⟩ <;> simp [submitUpload, nonSuccessMsg, hd]
    | failure e => exact ⟨rfl, rfl, rfl, herr, hnone⟩

/-- C5 witness: concrete run on a response `{}` lacking the result field. -/
theorem submitUpload_nonsuccess_preserved_witness :
    priorResultState.fileList ≠ [] ∧
    outcomeOk (ServerOutcome.success (some ⟨none⟩)) = false ∧
    ((submitUpload priorResultState (ServerOutcome.success (some ⟨none⟩))).state.result
        = priorResultState.result ∧
      (submitUpload priorResultState (ServerOutcome.success (some ⟨none⟩))).state.rawResult
        = priorResultState.rawResult ∧
      (submitUpload priorResultState (ServerOutcome.success (some ⟨none⟩))).messages
        = [nonSuccessMsg (ServerOutcome.success (some ⟨none⟩))] ∧
      (∀ (e : NetErr) (d : String), e.detailChain = some d → d ≠ "" → e.errText = d) ∧
      (∀ e : NetErr, e.detailChain = none → e.errText = e.message)) :=
  ⟨by decide, rfl,
    submitUpload_nonsuccess_preserved priorResultState
      (ServerOutcome.success (some ⟨none⟩)) (by decide) rfl⟩

/-- C7: the rendered view is a pure function of the raw result text —
states with equal `result` render equally, the rendering is exactly the
transform applied to the current raw text (so it is recomputed whenever
`result` changes, for arbitrary text, as a total function), and with an
empty `result` (and not loading) the preview pane renders nothing beyond
the empty placeholder. -/
theorem renderedMarkdown_pure (marked : String → String) (s1 s2 : AppState)
    (h : s1.result = s2.result) :
    renderedMarkdown marked s1 = renderedMarkdown marked s2 ∧
    renderedMarkdown marked s1 = marked s1.result ∧
    (∀ t : String, renderedMarkdown marked { s1 with result := t } = marked t) ∧
    (s1.loading = false → s1.result = "" →
      previewPane marked s1 = Pane.emptyState) := by
  refine ⟨by simp [renderedMarkdown, h], rfl, fun t => rfl, ?_⟩
  intro hl hr
  simp [previewPane, hl, hr]

/-- C7 witness: concrete renderer and states. -/
theorem renderedMarkdown_pure_witness :
    initState.result = initState.result ∧
    (renderedMarkdown (fun t => t ++ "!") initState
        = renderedMarkdown (fun t => t ++ "!") initState ∧
      renderedMarkdown (fun t => t ++ "!") initState
        = (fun t => t ++ "!") initState.result ∧
      (∀ t : String,
        renderedMarkdown (fun t0 => t0 ++ "!") { initState with result := t }
          = (fun t0 => t0 ++ "!") t) ∧
      (initState.loading = false → initState.result = "" →
        previewPane (fun t => t ++ "!") initState = Pane.emptyState)) :=
  ⟨rfl, renderedMarkdown_pure (fun t => t ++ "!") initState initState rfl⟩

/-- C8: `copyResult` on an empty raw text writes nothing to the clipboard
(and shows nothing); on a non-empty raw text it writes exactly the raw text
and shows the success notification when the clipboard write resolves and
the caught-failure error notification when it rejects. -/
theorem copyResult_behaviour (s : AppState) (c : ClipOutcome) :
    (s.rawResult = "" → copyResult s c = { writes := [], messages := [] }) ∧
    (s.rawResult ≠ "" →
      (copyResult s c).writes = [s.rawResult] ∧
      (copyResult s c).messages
        = [match c with
           | .ok => Msg.success "复制成功"
           | .fail => Msg.error "复制失败"]) := by
  constructor
  · intro h
    simp [copyResult, h]
  · intro h
    cases c <;> simp [copyResult, h]

/-- C8 witness: concrete runs of both branches. -/
theorem copyResult_behaviour_witness :
    initState.rawResult = "" ∧
    copyResult initState ClipOutcome.ok = { writes := [], messages := [] } ∧
    priorResultState.rawResult ≠ "" ∧
    ((copyResult priorResultState ClipOutcome.fail).writes = ["x"] ∧
      (copyResult priorResultState ClipOutcome.fail).messages
        = [Msg.error "复制失败"]) :=
  ⟨rfl, (copyResult_behaviour initState ClipOutcome.ok).1 rfl, by decide,
    (copyResult_behaviour priorResultState ClipOutcome.fail).2 (by decide)⟩

/-- C9: two dispatching submissions with the same selected file but
different modes issue requests identical in url, file field and content
type, differing only in the `mode` form field, which carries the wire value
of the mode selected at submit time — always `markdown` or `ocr`. -/
theorem submitUpload_mode_only_difference (s : AppState) (m1 m2 : Mode)
    (o1 o2 : ServerOutcome) (hf : s.fileList ≠ []) :
    ∃ q1 q2 : Request,
      (submitUpload { s with selectedMode := m1 } o1).request = some q1 ∧
      (submitUpload { s with selectedMode := m2 } o2).request = some q2 ∧
      q1.url = q2.url ∧ q1.fileField = q2.fileField ∧
      q1.contentType = q2.contentType ∧
      q1.modeField = Mode.wire m1 ∧ q2.modeField = Mode.wire m2 ∧
      (∀ m : Mode, Mode.wire m = "markdown" ∨ Mode.wire m = "ocr") := by
  rcases s with ⟨fl, m, l, res, rres⟩
  cases fl with
  | nil => exact absurd rfl hf
  | cons f rest =>
    refine ⟨⟨"/api/ocr", f.raw, m1.wire, "multipart/form-data"⟩,
      ⟨"/api/ocr", f.raw, m2.wire, "multipart/form-data"⟩,
      rfl, rfl, rfl, rfl, rfl, rfl, rfl, ?_⟩
    intro m
    cases m
    · exact Or.inl rfl
    · exact Or.inr rfl

/-- C9 witness: concrete pair of submissions over the same file with the
two modes. -/
theorem submitUpload_mode_only_difference_witness :
    priorResultState.fileList ≠ [] ∧
    (∃ q1 q2 : Request,
      (submitUpload { priorResultState with selectedMode := Mode.markdown }
        (ServerOutcome.success (some ⟨some "abc"⟩))).request = some q1 ∧
      (submitUpload { priorResultState with selectedMode := Mode.ocr }
        (ServerOutcome.failure ⟨none, "Network Error"⟩)).request = some q2 ∧
      q1.url = q2.url ∧ q1.fileField = q2.fileField ∧
      q1.contentType = q2.contentType ∧
      q1.modeField = Mode.wire Mode.markdown ∧ q2.modeField = Mode.wire Mode.ocr ∧
      (∀ m : Mode, Mode.wire m = "markdown" ∨ Mode.wire m = "ocr")) :=
  ⟨by decide,
    submitUpload_mode_only_difference priorResultState Mode.markdown Mode.ocr
      (ServerOutcome.success (some ⟨some "abc"⟩))
      (ServerOutcome.failure ⟨none, "Network Error"⟩) (by decide)⟩

/-- C10: a successful response whose `result` field is the empty string is
handled exactly like one whose `result` field is absent: the invocation
produces the same state, request and messages — the no-result warning, with
`result` and `rawResult` untouched — since presence is tested by truthiness
of `response.data.result`. -/
theorem submitUpload_empty_result_as_absent (s : AppState) (hf : s.fileList ≠ []) :
    submitUpload s (ServerOutcome.success (some ⟨some ""⟩))
      = submitUpload s (ServerOutcome.success (some ⟨none⟩)) ∧
    (submitUpload s (ServerOutcome.success (some ⟨some ""⟩))).state.result = s.result ∧
    (submitUpload s (ServerOutcome.success (some ⟨some ""⟩))).state.rawResult
      = s.rawResult ∧
    (submitUpload s (ServerOutcome.success (some ⟨some ""⟩))).messages
      = [Msg.warning "未返回识别结果"] := by
  rcases s with ⟨fl, m, l, res, rres⟩
  cases fl with
  | nil => exact absurd rfl hf
  | cons f rest => exact ⟨rfl, rfl, rfl, rfl⟩

/-- C10 witness: concrete run on a state holding a prior result. -/
theorem submitUpload_empty_result_as_absent_witness :
    priorResultState.fileList ≠ [] ∧
    (submitUpload priorResultState (ServerOutcome.success (some ⟨some ""⟩))
        = submitUpload priorResultState (ServerOutcome.success (some ⟨none⟩)) ∧
      (submitUpload priorResultState
        (ServerOutcome.success (some ⟨some ""⟩))).state.result
        = priorResultState.result ∧
      (submitUpload priorResultState
        (ServerOutcome.success (some ⟨some ""⟩))).state.rawResult
        = priorResultState.rawResult ∧
      (submitUpload priorResultState
        (ServerOutcome.success (some ⟨some ""⟩))).messages
        = [Msg.warning "未返回识别结果"]) :=
  ⟨by decide, submitUpload_empty_result_as_absent priorResultState (by decide)⟩

end DeepSeekOCR
